import Mathlib

/-!
Shallow embedding of the redis-for-rust server core.

The embedding covers the pieces of the program the verified properties
refer to: the server configuration (`src/db/db_config.rs`), the
per-connection session, the multi-database keyspace operations invoked by
the embedded command handlers, the command handlers whose sources are
available (`SET` in `src/command/string/set.rs`, `FLUSHDB` in
`src/command/flushdb.rs`, `ECHO` in `src/command/echo.rs`), the command
table `init_command_strategies` and the per-connection dispatch loop
`connection` (both in `src/main.rs`).

Modelling conventions:
  * `HashMap<String, _>` becomes an association list; lookup is the first
    entry with a matching key, insertion overwrites.
  * A Rust panic (an `unwrap()` that fails, or an out-of-bounds index)
    is the `ExecResult.panic` constructor: the thread unwinds, carrying
    the writes performed so far and the state at the moment of the panic.
  * Network writes become an accumulated list of reply strings.
  * The current time is passed explicitly as `now` (milliseconds).
  * Handlers whose source files are not available are a parameter
    (`missing`) of the command table, so theorems about dispatch hold for
    every possible behaviour of those handlers.
-/

/-- `RedisConfig` from `src/db/db_config.rs`. -/
structure RedisConfig where
  host : String
  port : Nat
  password : Option String
  databases : Nat
  aof_file_path : Option String
  deriving DecidableEq

/-- Per-connection session state (spec §3 `Session`; the `connection_id`
is the key under which the session is stored, so it is not repeated as a
field). -/
structure Session where
  authenticated : Bool
  selected_db : Nat
  deriving DecidableEq

/-- Modelled from the spec: `Session::new` (the file
`src/session/session.rs` is not available). Spec §3: "Created when a
connection is accepted, default `selected_db = 0`,
`authenticated = (config.password.is_none())`." -/
def Session.new (cfg : RedisConfig) : Session :=
  { authenticated := cfg.password.isNone, selected_db := 0 }

/-- A stored entry: a string value plus an optional absolute expiration
deadline in milliseconds (spec §3 `Entry`; only the `Str` shape is
exercised by the embedded handlers). -/
structure Entry where
  value : String
  expire_at : Option Int
  deriving DecidableEq

/-- One database: a key → entry map, embedded as an association list. -/
abbrev Database := List (String × Entry)

/-- The keyspace: the ordered sequence of databases (spec §3). -/
structure Redis where
  databases : List Database
  deriving DecidableEq

/-- Insert-or-overwrite of one key in a database. -/
def dbSet (d : Database) (k : String) (e : Entry) : Database :=
  (k, e) :: d.filter (fun p => p.1 != k)

/-- Lookup of one key in a database. -/
def dbGet (d : Database) (k : String) : Option Entry :=
  (d.find? (fun p => p.1 == k)).map Prod.snd

/-- Replace database `i` by `f` applied to it (indices past the end are
left unchanged, matching `List.set`). -/
def Redis.updateDb (r : Redis) (i : Nat) (f : Database → Database) : Redis :=
  ⟨r.databases.set i (f (r.databases.getD i []))⟩

/-- Modelled from the spec: `Redis::set` (the file `src/db/db.rs` is not
available). Spec §4.1: "`set` without TTL clears any prior `expire_at` on
that key (a bare SET cancels expiration)." -/
def Redis.set (r : Redis) (i : Nat) (k v : String) : Redis :=
  r.updateDb i (fun d => dbSet d k ⟨v, none⟩)

/-- Modelled from the spec: `Redis::set_with_ttl` (the file
`src/db/db.rs` is not available). Spec §4.1: "`set` with TTL stores
`expire_at = now + ttl_millis`." -/
def Redis.set_with_ttl (r : Redis) (i : Nat) (k v : String)
    (ttl now : Int) : Redis :=
  r.updateDb i (fun d => dbSet d k ⟨v, some (now + ttl)⟩)

/-- Modelled from the spec: `Redis::flush_db` (the file `src/db/db.rs` is
not available). Spec §4.1: "`flush(db)` atomically clears exactly one
database." -/
def Redis.flush_db (r : Redis) (i : Nat) : Redis :=
  ⟨r.databases.set i []⟩

/-- The session registry: `HashMap<String, Session>` as an association
list keyed by the peer address string. -/
abbrev SessionMap := List (String × Session)

/-- `session_manager.get(&session_id)`. -/
def lookupSession (m : SessionMap) (sid : String) : Option Session :=
  (m.find? (fun p => p.1 == sid)).map Prod.snd

/-- `session_manager.insert(session_id, session)` (overwrites). -/
def insertSession (m : SessionMap) (sid : String) (s : Session) : SessionMap :=
  (sid, s) :: m.filter (fun p => p.1 != sid)

/-- `session_manager.remove(&session_id)`. -/
def removeSession (m : SessionMap) (sid : String) : SessionMap :=
  m.filter (fun p => p.1 != sid)

/-- The shared mutable state a handler can touch: the keyspace and the
session registry. -/
structure ServerState where
  redis : Redis
  sessions : SessionMap
  deriving DecidableEq

/-- Outcome of running a handler or one dispatch step: a normal return or
a panic, each carrying the state and the replies written so far. -/
inductive ExecResult where
  | ok (st : ServerState) (writes : List String)
  | panic (st : ServerState) (writes : List String)
  deriving DecidableEq

/-- The replies written by a handler run, panicked or not. -/
def ExecResult.writes : ExecResult → List String
  | .ok _ w => w
  | .panic _ w => w

/-- The state left behind by a handler run, panicked or not. -/
def ExecResult.state : ExecResult → ServerState
  | .ok st _ => st
  | .panic st _ => st

/-- The calling convention of `CommandStrategy::execute`: the request
fragments, the session id (the peer address), the current time, and the
shared state. -/
abbrev Handler := List String → String → Int → ServerState → ExecResult

/-- The command table type of `init_command_strategies`. -/
abbrev Registry := List (String × Handler)

/-- `command_strategies.get(command)`. -/
def lookupRegistry (reg : Registry) (cmd : String) : Option Handler :=
  (reg.find? (fun p => p.1 == cmd)).map Prod.snd

/-- `str::to_uppercase()` restricted to the ASCII range touched by the
option tokens compared against it (`"px"`, `"ex"`, ...). -/
def strToUpper (s : String) : String :=
  String.mk (s.data.map Char.toUpper)

/-- `str::parse::<i64>`: an optional sign followed by at least one ASCII
decimal digit, rejecting values outside the 64-bit signed range. -/
def parseDigits : List Char → Option Nat
  | [] => none
  | cs =>
    if cs.all Char.isDigit then
      some (cs.foldl (fun a c => a * 10 + (c.toNat - 48)) 0)
    else
      none

/-- `str::parse::<i64>` on a whole string. -/
def parse_i64 (s : String) : Option Int :=
  match s.data with
  | '+' :: rest =>
    (parseDigits rest).bind fun n =>
      if n ≤ 2 ^ 63 - 1 then some (n : Int) else none
  | '-' :: rest =>
    (parseDigits rest).bind fun n =>
      if n ≤ 2 ^ 63 then some (-(n : Int)) else none
  | cs =>
    (parseDigits cs).bind fun n =>
      if n ≤ 2 ^ 63 - 1 then some (n : Int) else none

/-- Reduce an unbounded integer into the signed 64-bit range, as Rust
release-profile `i64` arithmetic does on overflow (two's-complement
wrapping). -/
def i64Wrap (x : Int) : Int :=
  (x + 2 ^ 63) % 2 ^ 64 - 2 ^ 63

/-- The `i64` multiplication `ttl * 1000` of `src/command/string/set.rs`
line 40: the product is reduced into the signed 64-bit range. Release
builds wrap on overflow as modelled here; a debug build would panic at
that line instead — under neither profile is an overflowing product
stored as written. -/
def i64_mul (a b : Int) : Int :=
  i64Wrap (a * b)

/-- `SetCommand::execute` from `src/command/string/set.rs`: resolve the
session (returning silently when it is absent), read `fragments[4]` and
`fragments[6]` as key and value, then either store with a TTL
(`PX`/`EX` at `fragments[8]`, count at `fragments[10]`, parsed with
`unwrap`; the `EX` count is scaled by the `i64` multiplication
`ttl * 1000`), store without TTL when there are no extra tokens, or store
nothing; finally write `+OK`. -/
def SetCommand.execute : Handler := fun fragments sid now st =>
  match lookupSession st.sessions sid with
  | none => .ok st []
  | some session =>
    let db_index := session.selected_db
    match fragments.get? 4, fragments.get? 6 with
    | some key, some value =>
      if fragments.length > 8 then
        match fragments.get? 8 with
        | some opt =>
          if strToUpper opt = "PX" then
            match fragments.get? 10 with
            | some t =>
              match parse_i64 t with
              | some ttl =>
                .ok { st with
                        redis := st.redis.set_with_ttl db_index key value ttl now }
                  ["+OK\r\n"]
              | none => .panic st []
            | none => .panic st []
          else if strToUpper opt = "EX" then
            match fragments.get? 10 with
            | some t =>
              match parse_i64 t with
              | some ttl =>
                .ok { st with
                        redis := st.redis.set_with_ttl db_index key value
                          (i64_mul ttl 1000) now }
                  ["+OK\r\n"]
              | none => .panic st []
            | none => .panic st []
          else
            .ok st ["+OK\r\n"]
        | none => .panic st []
      else
        .ok { st with redis := st.redis.set db_index key value } ["+OK\r\n"]
    | _, _ => .panic st []

/-- `FlushDbCommand::execute` from `src/command/flushdb.rs`: resolve the
session (returning silently when it is absent), flush the selected
database, write `+OK`. -/
def FlushDbCommand.execute : Handler := fun _fragments sid _now st =>
  match lookupSession st.sessions sid with
  | none => .ok st []
  | some session =>
    .ok { st with redis := st.redis.flush_db session.selected_db } ["+OK\r\n"]

/-- `EchoCommand::execute` from `src/command/echo.rs`: write
`+<fragments[4]>\r\n`. -/
def EchoCommand.execute : Handler := fun fragments _sid _now st =>
  match fragments.get? 4 with
  | some s => .ok st ["+" ++ s ++ "\r\n"]
  | none => .panic st []

/-- `init_command_strategies` from `src/main.rs`: the fixed table from
command name to handler, in insertion order. Handlers whose source files
are not available are supplied by the `missing` parameter. -/
def init_command_strategies (missing : String → Handler) : Registry :=
  [("echo", EchoCommand.execute),
   ("keys", missing "keys"),
   ("auth", missing "auth"),
   ("select", missing "select"),
   ("exists", missing "exists"),
   ("expire", missing "expire"),
   ("dbsize", missing "dbsize"),
   ("set", SetCommand.execute),
   ("get", missing "get"),
   ("del", missing "del"),
   ("flushall", missing "flushall"),
   ("flushdb", FlushDbCommand.execute),
   ("append", missing "append"),
   ("rename", missing "rename"),
   ("move", missing "move"),
   ("llen", missing "llen"),
   ("lpush", missing "lpush"),
   ("rpush", missing "rpush"),
   ("incr", missing "incr"),
   ("decr", missing "decr")]

/-- The command names registered by `init_command_strategies`. -/
def registryNames : List String :=
  ["echo", "keys", "auth", "select", "exists", "expire", "dbsize", "set",
   "get", "del", "flushall", "flushdb", "append", "rename", "move",
   "llen", "lpush", "rpush", "incr", "decr"]

/-- Split a character list on every occurrence of CR LF, keeping empty
segments, with `acc` the (reversed) characters of the current segment. -/
def splitCRLFAux : List Char → List Char → List String
  | [], acc => [String.mk acc.reverse]
  | '\r' :: '\n' :: rest, acc => String.mk acc.reverse :: splitCRLFAux rest []
  | c :: rest, acc => splitCRLFAux rest (c :: acc)

/-- `body.split("\r\n")`: split on every non-overlapping occurrence of
CR LF, keeping empty segments (so a body ending in CR LF yields a
trailing empty fragment, as in Rust). -/
def splitFragments (body : String) : List String :=
  splitCRLFAux body.data []

/-- The authentication-gate rejection written in `src/main.rs`. -/
def authRequiredReply : String := "-ERR Authentication required\r\n"

/-- The registry-miss default reply written in `src/main.rs`. -/
def pongReply : String := "+PONG\r\n"

/-- One iteration of the `connection` loop body on a successfully read
request `body` (`src/main.rs`, the `Ok(size)` arm with `size > 0`): split
into fragments, take `fragments[2]` as the command (panicking when it is
absent), look the session up with `unwrap`, run the authentication gate,
then resolve the command in the registry, running the handler on a hit
and writing `+PONG` on a miss. -/
def connectionStep (cfg : RedisConfig) (reg : Registry) (sid : String)
    (now : Int) (st : ServerState) (body : String) : ExecResult :=
  let fragments := splitFragments body
  match fragments.get? 2 with
  | none => .panic st []
  | some command =>
    match lookupSession st.sessions sid with
    | none => .panic st []
    | some session =>
      if cfg.password.isSome && command != "auth" && !session.authenticated then
        .ok st [authRequiredReply]
      else
        match lookupRegistry reg command with
        | some strategy => strategy fragments sid now st
        | none => .ok st [pongReply]

/-- One result of `stream.read` in the `connection` loop: data, a clean
close (`Ok(0)`), or a read error (`Err(_)`). -/
inductive ReadEvent where
  | data (body : String)
  | eof
  | err
  deriving DecidableEq

/-- The `'main` loop of `connection` over a sequence of read results:
a clean close breaks out without touching the session registry, a read
error removes the session and breaks out, a request runs one dispatch
step (a panic ends the thread with the session still registered). -/
def runLoop (cfg : RedisConfig) (reg : Registry) (sid : String) (now : Int) :
    List ReadEvent → ServerState → ServerState × List String
  | [], st => (st, [])
  | ReadEvent.eof :: _, st => (st, [])
  | ReadEvent.err :: _, st =>
    ({ st with sessions := removeSession st.sessions sid }, [])
  | ReadEvent.data body :: rest, st =>
    match connectionStep cfg reg sid now st body with
    | .ok st' w =>
      let r := runLoop cfg reg sid now rest st'
      (r.1, w ++ r.2)
    | .panic st' w => (st', w)

/-- `connection` from `src/main.rs`: register a fresh session under the
peer-address key, then run the read loop. -/
def connection (cfg : RedisConfig) (reg : Registry) (sid : String)
    (now : Int) (events : List ReadEvent) (st : ServerState) :
    ServerState × List String :=
  runLoop cfg reg sid now events
    { st with sessions := insertSession st.sessions sid (Session.new cfg) }

/-! ## Observation helpers and concrete fixtures -/

/-- Read the entry stored for `k` in database `i`. -/
def getEntry (r : Redis) (i : Nat) (k : String) : Option Entry :=
  dbGet (r.databases.getD i []) k

/-- ASCII lowercasing, used to phrase case-sensitivity statements. -/
def strToLower (s : String) : String :=
  String.mk (s.data.map Char.toLower)

/-- A handler that writes nothing and changes nothing; it stands in for
the handlers whose sources are unavailable in closed instantiations
(none of those instantiations ever reach it). -/
def trivialHandler : Handler := fun _ _ _ st => .ok st []

/-- A two-database keyspace with one entry carrying a TTL. -/
def redisA : Redis := ⟨[[("old", ⟨"x", some 5⟩)], [("p", ⟨"q", none⟩)]]⟩

/-- An unauthenticated session on database 0. -/
def sessA : Session := ⟨false, 0⟩

/-- A server state whose registry holds the session `"sid"`. -/
def stA : ServerState := ⟨redisA, [("sid", sessA)]⟩

/-- A server state with an empty session registry. -/
def stNoSession : ServerState := ⟨redisA, []⟩

/-- The default configuration with no password. -/
def cfgNoPw : RedisConfig := ⟨"127.0.0.1", 6379, none, 16, none⟩

/-- The default configuration with a password set. -/
def cfgPw : RedisConfig := ⟨"127.0.0.1", 6379, some "pw", 16, none⟩

/-- The command table with all unavailable handlers trivial. -/
def regA : Registry := init_command_strategies (fun _ => trivialHandler)

/-! ## Helper lemmas -/

theorem lookupSession_insert_self (m : SessionMap) (sid : String) (s : Session) :
    lookupSession (insertSession m sid s) sid = some s := by
  simp [lookupSession, insertSession, List.find?_cons]

theorem lookupSession_remove_self (m : SessionMap) (sid : String) :
    lookupSession (removeSession m sid) sid = none := by
  induction m with
  | nil => rfl
  | cons hd tl ih =>
    simp only [removeSession, List.filter_cons] at ih ⊢
    by_cases h : hd.1 = sid
    · simp [h, ih]
    · simp [lookupSession, List.find?_cons, h, ih]

theorem dbGet_dbSet_self (d : Database) (k : String) (e : Entry) :
    dbGet (dbSet d k e) k = some e := by
  simp [dbGet, dbSet, List.find?_cons]

theorem getD_set_self {α : Type} (l : List α) (i : Nat) (x d : α)
    (h : i < l.length) : (l.set i x).getD i d = x := by
  simp [List.getD_eq_getElem?_getD, List.getElem?_set_self h]

theorem lookupRegistry_init_names (missing : String → Handler) (cmd : String)
    (h : cmd ∉ registryNames) :
    lookupRegistry (init_command_strategies missing) cmd = none := by
  cases hfind : (init_command_strategies missing).find? (fun p => p.1 == cmd) with
  | none => simp [lookupRegistry, hfind]
  | some a =>
    exfalso
    apply h
    have hp : a.1 = cmd := by simpa using List.find?_some hfind
    have hm : a.1 ∈ (init_command_strategies missing).map Prod.fst :=
      List.mem_map_of_mem _ (List.mem_of_find?_eq_some hfind)
    have hnames : (init_command_strategies missing).map Prod.fst = registryNames := rfl
    rw [hnames, hp] at hm
    exact hm

theorem mem_registryNames_lower (cmd : String) (h : cmd ∈ registryNames) :
    strToLower cmd = cmd := by
  simp only [registryNames, List.mem_cons, List.not_mem_nil, or_false] at h
  rcases h with rfl|rfl|rfl|rfl|rfl|rfl|rfl|rfl|rfl|rfl|rfl|rfl|rfl|rfl|rfl|rfl|rfl|rfl|rfl|rfl <;>
    decide

theorem i64Wrap_eq_self (x : Int) (h1 : -(2 ^ 63) ≤ x)
    (h2 : x ≤ 2 ^ 63 - 1) : i64Wrap x = x := by
  unfold i64Wrap
  omega

theorem connectionStep_eq (cfg : RedisConfig) (reg : Registry) (sid : String)
    (now : Int) (st : ServerState) (body cmd : String) (s : Session)
    (hcmd : (splitFragments body).get? 2 = some cmd)
    (hs : lookupSession st.sessions sid = some s) :
    connectionStep cfg reg sid now st body =
      if cfg.password.isSome && cmd != "auth" && !s.authenticated then
        .ok st [authRequiredReply]
      else
        match lookupRegistry reg cmd with
        | some strategy => strategy (splitFragments body) sid now st
        | none => .ok st [pongReply] := by
  simp only [connectionStep, hcmd, hs]

/-! ## Claims -/

/-- Claim C1: on a server whose `config.password` is set, dispatching any
command other than `"auth"` while the session's `authenticated` flag is
false writes the authentication-required error and leaves the state
untouched — for every registry, so the command name is never looked up
and no handler runs; once the flag is true the gate never rejects again:
the step behaves exactly as it does on a server with no password. -/
theorem c1_auth_gate (cfg : RedisConfig) (reg : Registry) (sid : String)
    (now : Int) (st : ServerState) (body cmd : String) (s : Session)
    (hp : cfg.password.isSome = true)
    (hcmd : (splitFragments body).get? 2 = some cmd)
    (hs : lookupSession st.sessions sid = some s) :
    (s.authenticated = false → cmd ≠ "auth" →
      connectionStep cfg reg sid now st body = .ok st [authRequiredReply]) ∧
    (s.authenticated = true →
      connectionStep cfg reg sid now st body =
        connectionStep { cfg with password := none } reg sid now st body) := by
  constructor
  · intro ha hne
    rw [connectionStep_eq cfg reg sid now st body cmd s hcmd hs]
    simp [hp, ha, hne]
  · intro ha
    rw [connectionStep_eq cfg reg sid now st body cmd s hcmd hs,
      connectionStep_eq { cfg with password := none } reg sid now st body cmd s hcmd hs]
    simp [ha]

/-- Witness for C1 at a concrete input: a `GET` before authentication on
a password-protected server is rejected with the authentication error. -/
theorem c1_auth_gate_witness :
    connectionStep cfgPw regA "sid" 0 stA "*1\r\n$3\r\nget\r\n"
      = .ok stA [authRequiredReply] :=
  (c1_auth_gate cfgPw regA "sid" 0 stA "*1\r\n$3\r\nget\r\n" "get" sessA rfl rfl
    rfl).1 rfl (by decide)

/-- Claim C7: the session registered when a connection is accepted has
`selected_db = 0` and `authenticated` true exactly when no password is
configured (running `connection` with no read events exposes the state
right after the accept-time insert). -/
theorem c7_session_init (cfg : RedisConfig) (reg : Registry) (sid : String)
    (now : Int) (st : ServerState) :
    lookupSession (connection cfg reg sid now [] st).1.sessions sid
      = some { authenticated := cfg.password.isNone, selected_db := 0 } :=
  lookupSession_insert_self st.sessions sid (Session.new cfg)

/-- Claim C8 (code behaviour at the failing input): a connection that
closes cleanly (a read of zero bytes) leaves its session in the registry,
while a read error removes it — the clean-close half of the claim fails
on the code. -/
theorem c8_eof_keeps_session (cfg : RedisConfig) (reg : Registry)
    (sid : String) (now : Int) (st : ServerState) :
    lookupSession (connection cfg reg sid now [ReadEvent.eof] st).1.sessions sid
      = some (Session.new cfg) ∧
    lookupSession (connection cfg reg sid now [ReadEvent.err] st).1.sessions sid
      = none :=
  ⟨lookupSession_insert_self st.sessions sid (Session.new cfg),
   lookupSession_remove_self (insertSession st.sessions sid (Session.new cfg)) sid⟩

/-- Claim C2 counterexample: with the `set` handler registered, the
request `SET k v` (upper case) misses the registry and yields the default
`+PONG` with the state untouched, while `set k v` runs the `SET` handler
and stores the key — the two spellings are not dispatched to the same
handler. -/
theorem c2_counterexample :
    connectionStep cfgNoPw regA "sid" 0 stA
        "*3\r\n$3\r\nSET\r\n$1\r\nk\r\n$1\r\nv\r\n" = .ok stA [pongReply] ∧
    connectionStep cfgNoPw regA "sid" 0 stA
        "*3\r\n$3\r\nset\r\n$1\r\nk\r\n$1\r\nv\r\n"
      = .ok ⟨stA.redis.set 0 "k" "v", stA.sessions⟩ ["+OK\r\n"] ∧
    pongReply ≠ "+OK\r\n" :=
  ⟨by decide, by decide, by decide⟩

/-- Claim C2 (amended): command names are matched case-sensitively
against the all-lowercase table keys: a command name that is not already
lower case is not found in the registry — whatever the unavailable
handlers are — and, once past the authentication gate, the request gets
the default `+PONG` reply instead of any command handler. -/
theorem c2_case_sensitive (missing : String → Handler) (cfg : RedisConfig)
    (sid : String) (now : Int) (st : ServerState) (body cmd : String)
    (s : Session)
    (h : strToLower cmd ≠ cmd)
    (hcmd : (splitFragments body).get? 2 = some cmd)
    (hs : lookupSession st.sessions sid = some s)
    (hgate : cfg.password = none) :
    lookupRegistry (init_command_strategies missing) cmd = none ∧
    connectionStep cfg (init_command_strategies missing) sid now st body
      = .ok st [pongReply] := by
  have hmem : cmd ∉ registryNames := fun hm => h (mem_registryNames_lower cmd hm)
  have hnone := lookupRegistry_init_names missing cmd hmem
  refine ⟨hnone, ?_⟩
  rw [connectionStep_eq cfg (init_command_strategies missing) sid now st body
    cmd s hcmd hs]
  simp [hgate, hnone]

/-- Witness for C2 (amended) at a concrete input: `"SET"` misses the
lower-case table and the request is answered with `+PONG`. -/
theorem c2_case_sensitive_witness :
    lookupRegistry regA "SET" = none ∧
    connectionStep cfgNoPw regA "sid" 0 stA
        "*3\r\n$3\r\nSET\r\n$1\r\nk\r\n$1\r\nv\r\n" = .ok stA [pongReply] :=
  c2_case_sensitive (fun _ => trivialHandler) cfgNoPw "sid" 0 stA
    "*3\r\n$3\r\nSET\r\n$1\r\nk\r\n$1\r\nv\r\n" "SET" sessA (by decide) rfl rfl
    rfl

/-- Claim C6 counterexample: on a password-protected server, a request
whose command name (here `"foo"`) is not in the registry but that arrives
before authentication is answered with the authentication error, not with
`+PONG`. -/
theorem c6_counterexample :
    lookupRegistry regA "foo" = none ∧
    connectionStep cfgPw regA "sid" 0 stA "*1\r\n$3\r\nfoo\r\n"
      = .ok stA [authRequiredReply] ∧
    authRequiredReply ≠ pongReply :=
  ⟨rfl, by decide, by decide⟩

/-- Claim C6 (amended): a request that passes the authentication gate
(no password, or an authenticated session, or the `auth` command) and
whose command name is not found in the registry is answered with the
generic `+PONG` acknowledgment — not an error — with the state untouched,
and the connection loop goes on to process the next read. -/
theorem c6_unknown_pong (cfg : RedisConfig) (reg : Registry) (sid : String)
    (now : Int) (st : ServerState) (body cmd : String) (s : Session)
    (rest : List ReadEvent)
    (hcmd : (splitFragments body).get? 2 = some cmd)
    (hs : lookupSession st.sessions sid = some s)
    (hgate : cfg.password = none ∨ s.authenticated = true ∨ cmd = "auth")
    (hmiss : lookupRegistry reg cmd = none) :
    connectionStep cfg reg sid now st body = .ok st [pongReply] ∧
    runLoop cfg reg sid now (ReadEvent.data body :: rest) st
      = ((runLoop cfg reg sid now rest st).1,
         pongReply :: (runLoop cfg reg sid now rest st).2) := by
  have h1 : connectionStep cfg reg sid now st body = .ok st [pongReply] := by
    rw [connectionStep_eq cfg reg sid now st body cmd s hcmd hs]
    have hcond : (cfg.password.isSome && cmd != "auth" && !s.authenticated)
        = false := by
      rcases hgate with h | h | h <;> simp [h]
    simp [hcond, hmiss]
  refine ⟨h1, ?_⟩
  simp [runLoop, h1]

/-- Witness for C6 (amended) at a concrete input: an unknown command
`"foo"` on a password-less server is answered `+PONG` and the loop keeps
running (here reaching the clean close that follows). -/
theorem c6_unknown_pong_witness :
    connectionStep cfgNoPw regA "sid" 0 stA "*1\r\n$3\r\nfoo\r\n"
      = .ok stA [pongReply] ∧
    runLoop cfgNoPw regA "sid" 0
        [ReadEvent.data "*1\r\n$3\r\nfoo\r\n", ReadEvent.eof] stA
      = (stA, [pongReply]) := by
  have h := c6_unknown_pong cfgNoPw regA "sid" 0 stA "*1\r\n$3\r\nfoo\r\n"
    "foo" sessA [ReadEvent.eof] rfl rfl (Or.inl rfl) rfl
  exact ⟨h.1, by rw [h.2]; rfl⟩

/-- The fragments of a `SET k v PX abc` request, whose TTL token is not a
decimal integer. -/
def pxBadFragments : List String :=
  ["*5", "$3", "set", "$1", "k", "$1", "v", "$2", "PX", "$3", "abc", ""]

/-- Claim C4 (code behaviour at the failing input): a `SET` carrying
`PX abc` makes `SetCommand::execute` panic on the failed `parse::<i64>`
`unwrap` — the thread unwinds with no reply written and the keyspace
unchanged; no `MalformedArgument` error reply is ever produced. -/
theorem c4_ttl_parse_panics (sid : String) (now : Int) (st : ServerState)
    (s : Session) (hs : lookupSession st.sessions sid = some s) :
    SetCommand.execute pxBadFragments sid now st = .panic st [] := by
  simp only [SetCommand.execute, hs]
  rfl

/-- Witness for C4 at a concrete state. -/
theorem c4_ttl_parse_panics_witness :
    SetCommand.execute pxBadFragments "sid" 0 stA = .panic stA [] :=
  c4_ttl_parse_panics "sid" 0 stA sessA rfl

/-- Claim C9: a `FLUSHDB` request clears exactly the database selected by
the issuing session — resolved from the session registry at execution
time — replies `+OK`, and leaves every other database unchanged. -/
theorem c9_flushdb (fragments : List String) (sid : String) (now : Int)
    (st : ServerState) (s : Session)
    (hs : lookupSession st.sessions sid = some s)
    (hdb : s.selected_db < st.redis.databases.length) :
    FlushDbCommand.execute fragments sid now st
      = .ok { st with redis := st.redis.flush_db s.selected_db } ["+OK\r\n"] ∧
    (st.redis.flush_db s.selected_db).databases.getD s.selected_db [] = [] ∧
    ∀ j, j ≠ s.selected_db →
      (st.redis.flush_db s.selected_db).databases.get? j
        = st.redis.databases.get? j := by
  refine ⟨?_, ?_, ?_⟩
  · simp only [FlushDbCommand.execute, hs]
  · exact getD_set_self st.redis.databases s.selected_db [] [] hdb
  · intro j hj
    simp [Redis.flush_db, List.getElem?_set_ne (Ne.symm hj)]

/-- Witness for C9 at a concrete input: flushing database 0 of the
two-database fixture empties it, leaves database 1 as it was, and
replies `+OK`. -/
theorem c9_flushdb_witness :
    FlushDbCommand.execute ["*1", "$7", "flushdb", ""] "sid" 0 stA
      = .ok { stA with redis := stA.redis.flush_db 0 } ["+OK\r\n"] ∧
    (stA.redis.flush_db 0).databases.getD 0 [] = [] ∧
    (stA.redis.flush_db 0).databases.get? 1 = stA.redis.databases.get? 1 := by
  have h := c9_flushdb ["*1", "$7", "flushdb", ""] "sid" 0 stA sessA rfl
    (by decide)
  exact ⟨h.1, h.2.1, h.2.2 1 (by decide)⟩

/-- Claim C10: a `SET` with extra tokens whose option token (position 8)
is neither `PX` nor `EX` (case-insensitively) stores nothing — the state
is returned exactly as it was — yet still replies `+OK`. -/
theorem c10_bad_option_noop (fragments : List String) (sid : String)
    (now : Int) (st : ServerState) (s : Session) (key value opt : String)
    (hs : lookupSession st.sessions sid = some s)
    (hk : fragments.get? 4 = some key)
    (hv : fragments.get? 6 = some value)
    (hlen : fragments.length > 8)
    (ho : fragments.get? 8 = some opt)
    (hpx : strToUpper opt ≠ "PX")
    (hex : strToUpper opt ≠ "EX") :
    SetCommand.execute fragments sid now st = .ok st ["+OK\r\n"] := by
  simp only [SetCommand.execute, hs, hk, hv, ho]
  rw [if_pos hlen, if_neg hpx, if_neg hex]

/-- Witness for C10 at a concrete input: a `SET k v XX 99` request leaves
the fixture state untouched and replies `+OK`. -/
theorem c10_bad_option_noop_witness :
    SetCommand.execute
        ["*5", "$3", "set", "$1", "k", "$1", "v", "$2", "XX", "$2", "99", ""]
        "sid" 0 stA = .ok stA ["+OK\r\n"] :=
  c10_bad_option_noop
    ["*5", "$3", "set", "$1", "k", "$1", "v", "$2", "XX", "$2", "99", ""]
    "sid" 0 stA sessA "k" "v" "XX" rfl rfl rfl (by decide) rfl (by decide)
    (by decide)

/-- The fragments of `SET k v EX 9223372036854775807`, whose second
count parses as the largest `i64`. -/
def exHugeFragments : List String :=
  ["*5", "$3", "set", "$1", "k", "$1", "v", "$2", "EX", "$19",
   "9223372036854775807", ""]

/-- Claim C5 counterexample: at `EX 9223372036854775807` the `i64`
product `ttl * 1000` overflows, so the stored deadline is the wrapped
value and not `now + 1000 * seconds` (a debug build would panic at that
multiplication and store nothing — under neither profile is the claimed
deadline stored). -/
theorem c5_counterexample :
    SetCommand.execute exHugeFragments "sid" 0 stA
      = .ok { stA with
                redis := stA.redis.set_with_ttl 0 "k" "v"
                  (i64_mul 9223372036854775807 1000) 0 }
          ["+OK\r\n"] ∧
    getEntry (stA.redis.set_with_ttl 0 "k" "v"
        (i64_mul 9223372036854775807 1000) 0) 0 "k"
      = some ⟨"v", some (0 + i64_mul 9223372036854775807 1000)⟩ ∧
    (0 + i64_mul 9223372036854775807 1000 : Int)
      ≠ 0 + 1000 * 9223372036854775807 :=
  ⟨by decide, by decide, by decide⟩

/-- Claim C5 (amended): a `SET` whose option token upper-cases to `PX`
stores the key with `expire_at = now + ttl` for the given millisecond
count; with `EX` the stored deadline is `now + 1000 * ttl` for the given
second count whenever the product `1000 * ttl` fits in the signed
64-bit range (beyond that the `i64` multiplication wraps in release
builds and panics in debug builds); a bare `SET` (no extra tokens)
stores the value with no expiration, whatever `expire_at` the key had
before. -/
theorem c5_set_ttl (sid : String) (now : Int) (st : ServerState)
    (s : Session) (fragments : List String) (key value opt tok : String)
    (n : Int)
    (hs : lookupSession st.sessions sid = some s)
    (hdb : s.selected_db < st.redis.databases.length)
    (hk : fragments.get? 4 = some key)
    (hv : fragments.get? 6 = some value) :
    (fragments.length > 8 → fragments.get? 8 = some opt →
      strToUpper opt = "PX" → fragments.get? 10 = some tok →
      parse_i64 tok = some n →
      SetCommand.execute fragments sid now st
        = .ok { st with
                  redis := st.redis.set_with_ttl s.selected_db key value n now }
            ["+OK\r\n"] ∧
      getEntry (st.redis.set_with_ttl s.selected_db key value n now)
          s.selected_db key = some ⟨value, some (now + n)⟩) ∧
    (fragments.length > 8 → fragments.get? 8 = some opt →
      strToUpper opt = "EX" → fragments.get? 10 = some tok →
      parse_i64 tok = some n →
      -(2 ^ 63) ≤ n * 1000 → n * 1000 ≤ 2 ^ 63 - 1 →
      SetCommand.execute fragments sid now st
        = .ok { st with
                  redis := st.redis.set_with_ttl s.selected_db key value
                    (i64_mul n 1000) now }
            ["+OK\r\n"] ∧
      getEntry (st.redis.set_with_ttl s.selected_db key value
            (i64_mul n 1000) now)
          s.selected_db key = some ⟨value, some (now + 1000 * n)⟩) ∧
    (¬ fragments.length > 8 →
      SetCommand.execute fragments sid now st
        = .ok { st with redis := st.redis.set s.selected_db key value }
            ["+OK\r\n"] ∧
      getEntry (st.redis.set s.selected_db key value) s.selected_db key
        = some ⟨value, none⟩) := by
  refine ⟨?_, ?_, ?_⟩
  · intro hlen ho hpx ht hn
    constructor
    · simp only [SetCommand.execute, hs, hk, hv, ho, ht, hn]
      rw [if_pos hlen, if_pos hpx]
    · simp only [getEntry, Redis.set_with_ttl, Redis.updateDb]
      rw [getD_set_self _ _ _ _ hdb, dbGet_dbSet_self]
  · intro hlen ho hex ht hn hlo hhi
    have hnpx : strToUpper opt ≠ "PX" := by
      rw [hex]; decide
    constructor
    · simp only [SetCommand.execute, hs, hk, hv, ho, ht, hn]
      rw [if_pos hlen, if_neg hnpx, if_pos hex]
    · simp only [getEntry, Redis.set_with_ttl, Redis.updateDb, i64_mul]
      rw [getD_set_self _ _ _ _ hdb, dbGet_dbSet_self,
        i64Wrap_eq_self (n * 1000) hlo hhi, Int.mul_comm]
  · intro hlen
    constructor
    · simp only [SetCommand.execute, hs, hk, hv]
      rw [if_neg hlen]
    · simp only [getEntry, Redis.set, Redis.updateDb]
      rw [getD_set_self _ _ _ _ hdb, dbGet_dbSet_self]

/-- Witness for C5: the three cases at concrete inputs — `PX 1500`
stores a deadline of `7 + 1500`, `EX 2` stores `7 + 2000`, and a bare
`SET` on a key that previously carried a TTL stores it with no
expiration. -/
theorem c5_set_ttl_witness :
    (SetCommand.execute
        ["*5", "$3", "set", "$1", "k", "$1", "v", "$2", "px", "$4", "1500", ""]
        "sid" 7 stA
      = .ok { stA with redis := stA.redis.set_with_ttl 0 "k" "v" 1500 7 }
          ["+OK\r\n"] ∧
      getEntry (stA.redis.set_with_ttl 0 "k" "v" 1500 7) 0 "k"
        = some ⟨"v", some (7 + 1500)⟩) ∧
    (SetCommand.execute
        ["*5", "$3", "set", "$1", "k", "$1", "v", "$2", "EX", "$1", "2", ""]
        "sid" 7 stA
      = .ok { stA with
                redis := stA.redis.set_with_ttl 0 "k" "v" (i64_mul 2 1000) 7 }
          ["+OK\r\n"] ∧
      getEntry (stA.redis.set_with_ttl 0 "k" "v" (i64_mul 2 1000) 7) 0 "k"
        = some ⟨"v", some (7 + 1000 * 2)⟩) ∧
    (SetCommand.execute ["*3", "$3", "set", "$3", "old", "$1", "w", ""]
        "sid" 7 stA
      = .ok { stA with redis := stA.redis.set 0 "old" "w" } ["+OK\r\n"] ∧
      getEntry (stA.redis.set 0 "old" "w") 0 "old" = some ⟨"w", none⟩) :=
  ⟨(c5_set_ttl "sid" 7 stA sessA
      ["*5", "$3", "set", "$1", "k", "$1", "v", "$2", "px", "$4", "1500", ""]
      "k" "v" "px" "1500" 1500 rfl (by decide) rfl rfl).1
      (by decide) rfl (by decide) rfl (by decide),
   (c5_set_ttl "sid" 7 stA sessA
      ["*5", "$3", "set", "$1", "k", "$1", "v", "$2", "EX", "$1", "2", ""]
      "k" "v" "EX" "2" 2 rfl (by decide) rfl rfl).2.1
      (by decide) rfl (by decide) rfl (by decide) (by decide) (by decide),
   (c5_set_ttl "sid" 7 stA sessA
      ["*3", "$3", "set", "$3", "old", "$1", "w", ""]
      "old" "w" "x" "x" 0 rfl (by decide) rfl rfl).2.2 (by decide)⟩

/-- Claim C3 counterexample: when the request's session cannot be found
in the session registry, `SetCommand::execute` returns without writing
anything — the client gets zero replies for that request, not one. -/
theorem c3_counterexample :
    SetCommand.execute ["*3", "$3", "set", "$1", "k", "$1", "v", ""]
        "sid" 0 stNoSession = .ok stNoSession [] ∧
    (ExecResult.ok stNoSession []).writes.length = 0 :=
  ⟨by decide, rfl⟩

/-- Claim C3 (amended): a decoded request whose session is found in the
registry and whose dispatch returns without panicking writes exactly one
reply — whether the gate rejects it, the name misses the registry, or it
runs one of the embedded handlers (`set`, `flushdb`, `echo`); only a
missing session (or a panic) can break the one-reply contract. -/
theorem c3_one_reply (missing : String → Handler) (cfg : RedisConfig)
    (sid : String) (now : Int) (st st' : ServerState) (body cmd : String)
    (s : Session) (w : List String)
    (hcmd : (splitFragments body).get? 2 = some cmd)
    (hs : lookupSession st.sessions sid = some s)
    (hc : cmd = "set" ∨ cmd = "flushdb" ∨ cmd = "echo" ∨ cmd ∉ registryNames)
    (hok : connectionStep cfg (init_command_strategies missing) sid now st body
      = .ok st' w) :
    w.length = 1 := by
  rw [connectionStep_eq cfg (init_command_strategies missing) sid now st body
    cmd s hcmd hs] at hok
  split at hok
  · injection hok with h1 h2
    subst h2
    rfl
  · rcases hc with rfl | rfl | rfl | hni
    · rw [show lookupRegistry (init_command_strategies missing) "set"
          = some SetCommand.execute from rfl] at hok
      simp only [SetCommand.execute, hs] at hok
      repeat' split at hok
      all_goals first
        | (injection hok with h1 h2; subst h2; rfl)
        | injection hok
    · rw [show lookupRegistry (init_command_strategies missing) "flushdb"
          = some FlushDbCommand.execute from rfl] at hok
      simp only [FlushDbCommand.execute, hs] at hok
      injection hok with h1 h2
      subst h2
      rfl
    · rw [show lookupRegistry (init_command_strategies missing) "echo"
          = some EchoCommand.execute from rfl] at hok
      simp only [EchoCommand.execute] at hok
      split at hok
      · injection hok with h1 h2
        subst h2
        rfl
      · injection hok
    · rw [lookupRegistry_init_names missing cmd hni] at hok
      injection hok with h1 h2
      subst h2
      rfl

/-- Witness for C3 (amended) at a concrete input: a `set k v` request on
the fixture state is answered with exactly one reply. -/
theorem c3_one_reply_witness : (["+OK\r\n"] : List String).length = 1 :=
  c3_one_reply (fun _ => trivialHandler) cfgNoPw "sid" 0 stA
    ⟨stA.redis.set 0 "k" "v", stA.sessions⟩
    "*3\r\n$3\r\nset\r\n$1\r\nk\r\n$1\r\nv\r\n" "set" sessA ["+OK\r\n"]
    rfl rfl (Or.inl rfl) (by decide)
